import Mathlib

/-!
Shallow embedding of the Helsinki bike dashboard pipeline (src/main.py):
the dataset loader and normalizer, the station coordinate synthesizer, and
the trip filter and aggregator behind the update_dashboard callback.

Modelling conventions:
* a pandas timestamp is an integer count of epoch seconds; NaT is none;
* a missing (NaN) value in any column is none;
* rational numbers stand in for floats, so that means and scalings are exact;
* the numpy global generator is a state (current seed, position in the draw
  stream); the stream of standard normal draws it would produce is an
  arbitrary function g : seed -> position -> Rat, and normal(mu, sigma)
  returns mu + sigma * draw, advancing the position.  np.random.seed resets
  the state.  This captures exactly the determinism structure of the
  library generator while leaving the float-valued draws abstract;
* pandas sorts (np.unique, groupby key order, sort_values) are modelled by
  List.insertionSort with the corresponding order.
-/

namespace HelsinkiBike

/-- The canonical week order, week_order in update_dashboard. -/
def week_order : List String :=
  ["Monday", "Tuesday", "Wednesday", "Thursday", "Friday", "Saturday", "Sunday"]

/-- pandas Series.dt.day_name applied to an epoch-second timestamp:
epoch day 0 (1970-01-01) was a Thursday, index 3 in week_order. -/
def day_name (t : Int) : String :=
  week_order.getD ((t / 86400 + 3) % 7).toNat ""

/-- pandas Series.dt.hour: hour of day, 0..23. -/
def hour_of (t : Int) : Int :=
  t % 86400 / 3600

/-- One CSV row after pd.to_datetime(..., errors=coerce) on the Departure
column: departure is none exactly when the raw value failed to parse. -/
structure RawRow where
  departure : Option Int
  dep_station : Option String
  ret_station : Option String
  distance : Option Rat
  duration : Option Rat
deriving DecidableEq

/-- One row of df after the load block (main.py lines 9-12): the derived
Weekday and Hour columns are computed from Departure, null propagating. -/
structure Row where
  departure : Option Int
  weekday : Option String
  hour : Option Int
  dep_station : Option String
  ret_station : Option String
  distance : Option Rat
  duration : Option Rat
deriving DecidableEq

/-- Normalization of one row: df.Weekday = df.Departure.dt.day_name() and
df.Hour = df.Departure.dt.hour, both null when Departure is NaT. -/
def load_row (r : RawRow) : Row where
  departure := r.departure
  weekday := r.departure.map day_name
  hour := r.departure.map hour_of
  dep_station := r.dep_station
  ret_station := r.ret_station
  distance := r.distance
  duration := r.duration

/-- The dataset load: every raw row is retained (errors=coerce never drops
or aborts), each normalized by load_row. -/
def load (rs : List RawRow) : List Row :=
  rs.map load_row

/-- The inputs of the update_dashboard callback. -/
structure Query where
  dep_station : String
  ret_station : String
  start_date : Int
  end_date : Int
  weekdays : List String
  selected_hour : Int
deriving DecidableEq

/-- The boolean filter filt of update_dashboard (main.py lines 118-124),
with pandas null semantics: a NaN station name compares unequal to any
string, a NaT departure fails both date comparisons, and a NaN weekday is
not in a list of weekday strings. -/
def matches_row (q : Query) (r : Row) : Bool :=
  (r.dep_station == some q.dep_station) &&
  (r.ret_station == some q.ret_station) &&
  (match r.departure with
   | some t => decide (q.start_date ≤ t) && decide (t ≤ q.end_date)
   | none => false) &&
  (match r.weekday with
   | some w => q.weekdays.contains w
   | none => false)

/-- trip_df = df[filt]. -/
def matching (q : Query) (df : List Row) : List Row :=
  df.filter (matches_row q)

/-- pandas Series.mean with default skipna: nulls are dropped, and the mean
of an all-null (hence empty) series is NaN, modelled as none. -/
def series_mean (col : List (Option Rat)) : Option Rat :=
  let vals := col.filterMap id
  if vals.isEmpty then none else some (vals.sum / vals.length)

/-- Position of a weekday name in the canonical week order. -/
def canon_index (w : String) : Nat :=
  week_order.indexOf w

/-- The sort key of heat_data.sort_values on the Categorical Weekday
column: rows compare by canonical weekday position. -/
def weekday_le (a b : String × Nat) : Prop :=
  canon_index a.1 ≤ canon_index b.1

instance : DecidableRel weekday_le := fun a b =>
  Nat.decLe (canon_index a.1) (canon_index b.1)

instance : IsTotal (String × Nat) weekday_le :=
  ⟨fun a b => Nat.le_total (canon_index a.1) (canon_index b.1)⟩

instance : IsTrans (String × Nat) weekday_le :=
  ⟨fun _ _ _ hab hbc => Nat.le_trans hab hbc⟩

/-- trip_df.groupby(Weekday).size(): null keys are dropped, the distinct
keys are listed in ascending order, each with its group size. -/
def groupby_weekday_size (rows : List Row) : List (String × Nat) :=
  let keys := List.insertionSort (· ≤ ·) (rows.filterMap Row.weekday).dedup
  keys.map (fun w => (w, (rows.filter (fun r => r.weekday == some w)).length))

/-- heat_data of update_dashboard (main.py lines 154-158): restrict trip_df
to the selected hour, group by weekday with counts, then reorder by the
canonical week order via the Categorical sort. -/
def heat_data (trip_df : List Row) (selected_hour : Int) : List (String × Nat) :=
  List.insertionSort weekday_le
    (groupby_weekday_size (trip_df.filter (fun r => r.hour == some selected_hour)))

/-- The heatmap figure, up to rendering: the empty-match branch shows the
constant No Data placeholder, the other branch a bar per weekday. -/
inductive Heatmap where
  | noData : Heatmap
  | bars : List (String × Nat) → Heatmap
deriving DecidableEq

/-- The derived outputs of one update_dashboard invocation (stats card and
heatmap figure), up to rendering. -/
structure TripResult where
  trip_count : Nat
  avg_distance_km : Option Rat
  avg_duration_min : Option Rat
  heatmap : Heatmap
deriving DecidableEq

/-- The computation of update_dashboard (main.py lines 117-162) on the
dataset: counts, means over the matching subset (none models a NaN mean),
and the hourly weekday breakdown. -/
def compute_result (df : List Row) (q : Query) : TripResult where
  trip_count := (matching q df).length
  avg_distance_km :=
    if (matching q df).isEmpty then some 0
    else (series_mean ((matching q df).map Row.distance)).map (fun m => m / 1000)
  avg_duration_min :=
    if (matching q df).isEmpty then some 0
    else (series_mean ((matching q df).map Row.duration)).map (fun m => m / 60)
  heatmap :=
    if (matching q df).isEmpty then Heatmap.noData
    else Heatmap.bars (heat_data (matching q df) q.selected_hour)

/-- The numpy global generator state: the seed last planted and the
position reached in that seed's draw stream. -/
structure RNG where
  seed_val : Nat
  idx : Nat
deriving DecidableEq

/-- np.random.seed(n): resets the global state to the start of seed n's
stream, whatever the previous state was. -/
def np_seed (n : Nat) (_s : RNG) : RNG :=
  ⟨n, 0⟩

/-- np.random.normal(mu, sigma) under the abstract draw stream g: returns
mu + sigma times the next standard draw and advances the state. -/
def np_normal (g : Nat → Nat → Rat) (mu sigma : Rat) (s : RNG) : Rat × RNG :=
  (mu + sigma * g s.seed_val s.idx, ⟨s.seed_val, s.idx + 1⟩)

/-- base_lat = 60.1699 as an exact rational. -/
def base_lat : Rat := 601699 / 10000

/-- base_lon = 24.9384 as an exact rational. -/
def base_lon : Rat := 249384 / 10000

/-- Series.dropna().unique(): the distinct non-null values, first
occurrence order. -/
def dropna_unique (col : List (Option String)) : List String :=
  (col.filterMap id).dedup

/-- np.unique: the distinct values in ascending order. -/
def np_unique (l : List String) : List String :=
  List.insertionSort (· ≤ ·) l.dedup

/-- all_stations (main.py lines 14-22): the sorted distinct non-null
departure station names, likewise for returns, concatenated and passed
through np.unique. -/
def all_stations (df : List Row) : List String :=
  np_unique
    (List.insertionSort (· ≤ ·) (dropna_unique (df.map Row.dep_station)) ++
     List.insertionSort (· ≤ ·) (dropna_unique (df.map Row.ret_station)))

/-- The loop of main.py lines 23-26: for each station name in order draw a
latitude offset normal(0, 0.02) then a longitude offset normal(0, 0.03)
and record base point plus offsets. -/
def coords_loop (g : Nat → Nat → Rat) : List String → RNG → List (String × Rat × Rat) × RNG
  | [], s => ([], s)
  | name :: rest, s =>
    let lat := np_normal g 0 (2 / 100) s
    let lon := np_normal g 0 (3 / 100) lat.2
    let tail := coords_loop g rest lon.2
    ((name, base_lat + lat.1, base_lon + lon.1) :: tail.1, tail.2)

/-- The station coordinate synthesizer (main.py lines 19-26): seed the
generator with the constant 42, then run the loop over all_stations. -/
def station_coords (g : Nat → Nat → Rat) (df : List Row) (s0 : RNG) :
    List (String × Rat × Rat) × RNG :=
  coords_loop g (all_stations df) (np_seed 42 s0)

/-- The process-wide state the callback reads: the loaded dataset and the
coordinate table. -/
structure DashState where
  df : List Row
  coords : List (String × Rat × Rat)
deriving DecidableEq

/-- The load-time construction of the process state (main.py lines 9-26). -/
def dash_init (g : Nat → Nat → Rat) (raws : List RawRow) (s0 : RNG) : DashState :=
  ⟨load raws, (station_coords g (load raws) s0).1⟩

/-- One invocation of the update_dashboard callback: it computes a fresh
TripResult from the shared state and mutates nothing. -/
def update_dashboard (st : DashState) (q : Query) : TripResult × DashState :=
  (compute_result st.df q, st)

/-- A trivial abstract draw stream used to instantiate theorems at
concrete inputs. -/
def g0 : Nat → Nat → Rat := fun _ _ => 0

/-- A sample parsed row: departure at epoch second 0 (a Thursday, hour 0),
stations A and B, distance 1 m and duration 2 s. -/
def raw1 : RawRow :=
  ⟨some 0, some "A", some "B", some 1, some 2⟩

/-- A sample row whose Departure value failed to parse. -/
def raw_no_dep : RawRow :=
  ⟨none, some "A", some "B", some 1, some 2⟩

/-- A sample parsed row with missing distance and duration. -/
def raw_no_vals : RawRow :=
  ⟨some 0, some "A", some "B", none, none⟩

/-- A sample query matching raw1 and raw_no_vals. -/
def q1 : Query :=
  ⟨"A", "B", -10, 10, ["Thursday"], 0⟩

theorem sum_map_div (ds : List Rat) (c : Rat) :
    (ds.map (fun d => d / c)).sum = ds.sum / c := by
  induction ds with
  | nil => simp
  | cons d rest ih => simp [ih, add_div]

/-- C1: a row is in the matching subset iff it is in the dataset, its
departure station name equals the query's departure station (exact,
case-sensitive), its return station name equals the query's return
station, its departure time is within [start_date, end_date] inclusive (a
row with null departure time never matches), and its weekday is a member
of the query's weekday set. -/
theorem C1_filter_predicate (q : Query) (df : List Row) (r : Row) :
    r ∈ matching q df ↔
      r ∈ df ∧
      r.dep_station = some q.dep_station ∧
      r.ret_station = some q.ret_station ∧
      (∃ t, r.departure = some t ∧ q.start_date ≤ t ∧ t ≤ q.end_date) ∧
      (∃ w, r.weekday = some w ∧ w ∈ q.weekdays) := by
  cases hdep : r.departure with
  | none => simp [matching, List.mem_filter, matches_row, hdep]
  | some t =>
    cases hwk : r.weekday with
    | none => simp [matching, List.mem_filter, matches_row, hdep, hwk]
    | some w =>
      simp only [matching, List.mem_filter, matches_row, hdep, hwk]
      simp only [Bool.and_eq_true, beq_iff_eq, decide_eq_true_eq,
        List.elem_iff, Option.some.injEq, exists_eq_left']
      tauto

theorem C1_filter_predicate_witness :
    load_row raw1 ∈ matching q1 (load [raw1]) :=
  (C1_filter_predicate q1 (load [raw1]) (load_row raw1)).mpr
    ⟨by decide, by decide, by decide, ⟨0, by decide, by decide, by decide⟩,
     ⟨"Thursday", by decide, by decide⟩⟩

/-- C2: trip_count is the number of matching rows; with no matching rows
both averages are 0; otherwise avg_distance_km is the mean of
distance_m/1000 over the matching rows with non-null distance and
avg_duration_min is the mean of duration_s/60 over the matching rows with
non-null duration, nulls excluded from the denominators. -/
theorem C2_summary_stats (q : Query) (df : List Row) :
    (compute_result df q).trip_count = (matching q df).length ∧
    (matching q df = [] →
      (compute_result df q).avg_distance_km = some 0 ∧
      (compute_result df q).avg_duration_min = some 0) ∧
    (∀ ds, ds = (matching q df).filterMap Row.distance → ds ≠ [] →
      (compute_result df q).avg_distance_km =
        some ((ds.map (fun d => d / 1000)).sum / (ds.length : Rat))) ∧
    (∀ ds, ds = (matching q df).filterMap Row.duration → ds ≠ [] →
      (compute_result df q).avg_duration_min =
        some ((ds.map (fun d => d / 60)).sum / (ds.length : Rat))) := by
  refine ⟨rfl, fun h => by simp [compute_result, h], ?_, ?_⟩
  · intro ds hds hne
    have hmatch : (matching q df).isEmpty = false := by
      cases hE : (matching q df).isEmpty
      · rfl
      · rw [List.isEmpty_iff] at hE
        simp [hE] at hds
        exact absurd hds hne
    have hdsne : ds.isEmpty = false := by
      cases hE : ds.isEmpty
      · rfl
      · exact absurd (List.isEmpty_iff.mp hE) hne
    have hvals : ((matching q df).map Row.distance).filterMap id = ds := by
      rw [List.filterMap_map, hds]; rfl
    simp only [compute_result, hmatch, Bool.false_eq_true, if_false,
      series_mean, hvals, hdsne, Option.map_some']
    rw [sum_map_div, div_right_comm]
  · intro ds hds hne
    have hmatch : (matching q df).isEmpty = false := by
      cases hE : (matching q df).isEmpty
      · rfl
      · rw [List.isEmpty_iff] at hE
        simp [hE] at hds
        exact absurd hds hne
    have hdsne : ds.isEmpty = false := by
      cases hE : ds.isEmpty
      · rfl
      · exact absurd (List.isEmpty_iff.mp hE) hne
    have hvals : ((matching q df).map Row.duration).filterMap id = ds := by
      rw [List.filterMap_map, hds]; rfl
    simp only [compute_result, hmatch, Bool.false_eq_true, if_false,
      series_mean, hvals, hdsne, Option.map_some']
    rw [sum_map_div, div_right_comm]

theorem C2_summary_stats_witness :
    (compute_result (load [raw1]) q1).avg_distance_km =
      some ((([(1 : Rat)].map (fun d => d / 1000)).sum / (([(1 : Rat)].length : Nat) : Rat)) ) :=
  (C2_summary_stats q1 (load [raw1])).2.2.1 [1] (by decide) (by decide)

/-- C5: a query with an empty matching subset yields trip_count 0, both
averages 0, and the constant No Data heatmap placeholder; compute_result
is total, so no error is raised. -/
theorem C5_empty_match (q : Query) (df : List Row) (h : matching q df = []) :
    (compute_result df q).trip_count = 0 ∧
    (compute_result df q).avg_distance_km = some 0 ∧
    (compute_result df q).avg_duration_min = some 0 ∧
    (compute_result df q).heatmap = Heatmap.noData := by
  simp [compute_result, h]

theorem C5_empty_match_witness :
    (compute_result [] q1).trip_count = 0 ∧
    (compute_result [] q1).avg_distance_km = some 0 ∧
    (compute_result [] q1).avg_duration_min = some 0 ∧
    (compute_result [] q1).heatmap = Heatmap.noData :=
  C5_empty_match q1 [] (by decide)

/-- C6: a row whose Departure failed to parse is loaded with null
departure, weekday and hour; the load keeps every row; and such a row
never satisfies the date-bounded filter, so it is excluded from every
matching subset. -/
theorem C6_unparsable_departure (raw : RawRow) (h : raw.departure = none)
    (raws : List RawRow) (q : Query) :
    (load_row raw).departure = none ∧
    (load_row raw).weekday = none ∧
    (load_row raw).hour = none ∧
    (load raws).length = raws.length ∧
    (raw ∈ raws → load_row raw ∈ load raws) ∧
    matches_row q (load_row raw) = false ∧
    load_row raw ∉ matching q (load raws) := by
  refine ⟨by simp [load_row, h], by simp [load_row, h], by simp [load_row, h],
    by simp [load], fun hm => List.mem_map_of_mem load_row hm, ?_, ?_⟩
  · simp [matches_row, load_row, h]
  · intro hmem
    have := (List.mem_filter.mp hmem).2
    simp [matches_row, load_row, h] at this

theorem C6_unparsable_departure_witness :
    (load_row raw_no_dep).weekday = none ∧
    load_row raw_no_dep ∉ matching q1 (load [raw_no_dep]) :=
  ⟨(C6_unparsable_departure raw_no_dep rfl [raw_no_dep] q1).2.1,
   (C6_unparsable_departure raw_no_dep rfl [raw_no_dep] q1).2.2.2.2.2.2⟩

/-- C8: the update_dashboard callback reads the shared state and never
writes it, so issuing the identical query twice in a row against the
unchanged dataset yields an identical TripResult. -/
theorem C8_idempotent (st : DashState) (q : Query) :
    (update_dashboard (update_dashboard st q).2 q).1 = (update_dashboard st q).1 :=
  rfl

/-- C10: a non-empty matching subset in which every distance is missing
yields a NaN (none) average distance, not 0; likewise for duration. -/
theorem C10_all_null_mean (q : Query) (df : List Row)
    (h : matching q df ≠ []) :
    ((∀ r ∈ matching q df, r.distance = none) →
      (compute_result df q).avg_distance_km = none) ∧
    ((∀ r ∈ matching q df, r.duration = none) →
      (compute_result df q).avg_duration_min = none) := by
  have hne : (matching q df).isEmpty = false := by
    cases hE : (matching q df).isEmpty
    · rfl
    · exact absurd (List.isEmpty_iff.mp hE) h
  constructor
  · intro hall
    have hnil : ((matching q df).map Row.distance).filterMap id = [] := by
      rw [List.filterMap_map]
      exact List.filterMap_eq_nil_iff.mpr (by simpa using hall)
    simp [compute_result, hne, series_mean, hnil]
  · intro hall
    have hnil : ((matching q df).map Row.duration).filterMap id = [] := by
      rw [List.filterMap_map]
      exact List.filterMap_eq_nil_iff.mpr (by simpa using hall)
    simp [compute_result, hne, series_mean, hnil]

theorem day_name_mem_week_order (t : Int) : day_name t ∈ week_order := by
  have h : ((t / 86400 + 3) % 7).toNat < week_order.length := by
    simp only [week_order, List.length_cons, List.length_nil]
    omega
  rw [day_name, List.getD_eq_getElem _ _ h]
  exact List.getElem_mem h

theorem load_weekday_mem (raws : List RawRow) (r : Row) (hr : r ∈ load raws)
    (w : String) (hw : r.weekday = some w) : w ∈ week_order := by
  obtain ⟨raw, _, rfl⟩ := List.mem_map.mp hr
  simp only [load_row] at hw
  obtain ⟨ts, _, rfl⟩ := Option.map_eq_some'.mp hw
  exact day_name_mem_week_order ts

theorem mem_groupby_weekday_size (rows : List Row) (w : String) (c : Nat) :
    (w, c) ∈ groupby_weekday_size rows ↔
      ((∃ r ∈ rows, r.weekday = some w) ∧
       c = (rows.filter (fun r => r.weekday == some w)).length) := by
  unfold groupby_weekday_size
  simp only [List.mem_map, List.mem_insertionSort, List.mem_dedup, List.mem_filterMap,
    Prod.mk.injEq]
  constructor
  · rintro ⟨k, hk, rfl, rfl⟩
    exact ⟨hk, rfl⟩
  · rintro ⟨⟨r, hr, hw⟩, rfl⟩
    exact ⟨w, ⟨r, hr, hw⟩, rfl, rfl⟩

/-- C7: the hourly breakdown restricts the matching subset to rows at the
selected hour and counts per weekday; only weekdays present in that
restriction appear, each with its exact count, and the displayed rows are
ordered by canonical weekday position Monday through Sunday. -/
theorem C7_hourly_breakdown (raws : List RawRow) (q : Query) :
    List.Pairwise weekday_le (heat_data (matching q (load raws)) q.selected_hour) ∧
    (∀ p ∈ heat_data (matching q (load raws)) q.selected_hour, p.1 ∈ week_order) ∧
    (∀ w c, (w, c) ∈ heat_data (matching q (load raws)) q.selected_hour ↔
      ((∃ r ∈ matching q (load raws),
          r.hour = some q.selected_hour ∧ r.weekday = some w) ∧
       c = ((matching q (load raws)).filter
              (fun r => r.hour == some q.selected_hour && r.weekday == some w)).length)) := by
  refine ⟨List.sorted_insertionSort _ _, ?_, ?_⟩
  · intro p hp
    rw [heat_data, List.mem_insertionSort] at hp
    obtain ⟨⟨r, hr, hw⟩, -⟩ := (mem_groupby_weekday_size _ p.1 p.2).mp hp
    have hrt : r ∈ load raws := (List.mem_filter.mp (List.mem_filter.mp hr).1).1
    exact load_weekday_mem raws r hrt p.1 hw
  · intro w c
    rw [heat_data, List.mem_insertionSort, mem_groupby_weekday_size]
    have hcount :
        (((matching q (load raws)).filter
            (fun r => r.hour == some q.selected_hour)).filter
          (fun r => r.weekday == some w)) =
        (matching q (load raws)).filter
          (fun r => r.hour == some q.selected_hour && r.weekday == some w) := by
      rw [List.filter_filter]
      exact List.filter_congr (fun r _ => Bool.and_comm _ _)
    rw [hcount]
    constructor
    · rintro ⟨⟨r, hr, hw⟩, hc⟩
      obtain ⟨hrt, hrh⟩ := List.mem_filter.mp hr
      exact ⟨⟨r, hrt, by simpa using hrh, hw⟩, hc⟩
    · rintro ⟨⟨r, hrt, hrh, hw⟩, hc⟩
      exact ⟨⟨r, List.mem_filter.mpr ⟨hrt, by simpa using hrh⟩, hw⟩, hc⟩

theorem C7_hourly_breakdown_witness :
    ("Thursday", 1) ∈ heat_data (matching q1 (load [raw1])) q1.selected_hour :=
  ((C7_hourly_breakdown [raw1] q1).2.2 "Thursday" 1).mpr
    ⟨⟨load_row raw1, by decide, by decide, by decide⟩, by decide⟩

theorem coords_loop_formula (g : Nat → Nat → Rat) (sv : Nat) :
    ∀ (names : List String) (j : Nat),
      coords_loop g names ⟨sv, 2 * j⟩ =
        ((names.enumFrom j).map
          (fun p => (p.2, base_lat + 2 / 100 * g sv (2 * p.1),
                     base_lon + 3 / 100 * g sv (2 * p.1 + 1))),
         ⟨sv, 2 * (j + names.length)⟩) := by
  intro names
  induction names with
  | nil => intro j; simp [coords_loop, List.enumFrom]
  | cons n rest ih =>
    intro j
    have h2 : (⟨sv, 2 * j + 1 + 1⟩ : RNG) = ⟨sv, 2 * (j + 1)⟩ := by
      have harith : 2 * j + 1 + 1 = 2 * (j + 1) := by omega
      rw [harith]
    simp only [coords_loop, np_normal, List.enumFrom, List.map_cons, zero_add]
    rw [h2, ih (j + 1)]
    simp only [Prod.mk.injEq, RNG.mk.injEq, List.length_cons, List.cons.injEq,
      true_and, and_true]
    all_goals omega

theorem station_coords_fst (g : Nat → Nat → Rat) (df : List Row) (s0 : RNG) :
    (station_coords g df s0).1 =
      (all_stations df).enum.map
        (fun p => (p.2, base_lat + 2 / 100 * g 42 (2 * p.1),
                   base_lon + 3 / 100 * g 42 (2 * p.1 + 1))) := by
  rw [station_coords, np_seed]
  have h := coords_loop_formula g 42 (all_stations df) 0
  rw [show (⟨42, 2 * 0⟩ : RNG) = ⟨42, 0⟩ from rfl] at h
  rw [h]
  rfl

theorem all_stations_sorted (df : List Row) :
    List.Sorted (· ≤ ·) (all_stations df) := by
  rw [all_stations, np_unique]
  exact List.sorted_insertionSort _ _

theorem all_stations_nodup (df : List Row) : (all_stations df).Nodup := by
  rw [all_stations, np_unique]
  exact ((List.perm_insertionSort _ _).nodup_iff).mpr (List.nodup_dedup _)

theorem all_stations_mem (df : List Row) (w : String) :
    w ∈ all_stations df ↔
      ((∃ r ∈ df, r.dep_station = some w) ∨ (∃ r ∈ df, r.ret_station = some w)) := by
  simp only [all_stations, np_unique, dropna_unique, List.mem_insertionSort,
    List.mem_dedup, List.mem_append, List.mem_filterMap, List.mem_map, id_eq]
  constructor
  · rintro (⟨o, ⟨r, hr, rfl⟩, ho⟩ | ⟨o, ⟨r, hr, rfl⟩, ho⟩)
    · exact Or.inl ⟨r, hr, ho⟩
    · exact Or.inr ⟨r, hr, ho⟩
  · rintro (⟨r, hr, hw⟩ | ⟨r, hr, hw⟩)
    · exact Or.inl ⟨r.dep_station, ⟨r, hr, rfl⟩, hw⟩
    · exact Or.inr ⟨r.ret_station, ⟨r, hr, rfl⟩, hw⟩

/-- C3: the synthesizer seeds the generator with the constant 42, walks the
deduplicated union of departure and return station names in lexicographic
ascending order, and gives the k-th name base latitude 60.1699 plus 0.02
times the 2k-th standard draw and base longitude 24.9384 plus 0.03 times
the (2k+1)-th standard draw of seed 42's stream. -/
theorem C3_synthesizer (g : Nat → Nat → Rat) (df : List Row) (s0 : RNG) :
    List.Sorted (· ≤ ·) (all_stations df) ∧
    (all_stations df).Nodup ∧
    (∀ w, w ∈ all_stations df ↔
      ((∃ r ∈ df, r.dep_station = some w) ∨ (∃ r ∈ df, r.ret_station = some w))) ∧
    (station_coords g df s0).1 =
      (all_stations df).enum.map
        (fun p => (p.2, base_lat + 2 / 100 * g 42 (2 * p.1),
                   base_lon + 3 / 100 * g 42 (2 * p.1 + 1))) :=
  ⟨all_stations_sorted df, all_stations_nodup df, all_stations_mem df,
   station_coords_fst g df s0⟩

theorem C3_synthesizer_witness :
    "A" ∈ all_stations (load [raw1]) :=
  ((C3_synthesizer g0 (load [raw1]) ⟨0, 0⟩).2.2.1 "A").mpr
    (Or.inl ⟨load_row raw1, by decide, by decide⟩)

/-- C4: running the coordinate synthesizer a second time, from whatever
generator state the first run left behind, reproduces the first run's
coordinate list exactly, because the synthesizer re-seeds with the
constant 42 before drawing. -/
theorem C4_two_run_determinism (g : Nat → Nat → Rat) (df : List Row) (s0 : RNG) :
    (station_coords g df ((station_coords g df s0).2)).1 =
      (station_coords g df s0).1 :=
  rfl

/-- C9: the coordinate table built at load time has exactly the distinct
non-null station names of the departure and return columns as keys, each
key once, and the update_dashboard callback leaves the table unchanged. -/
theorem C9_coordinate_table (g : Nat → Nat → Rat) (raws : List RawRow)
    (s0 : RNG) (q : Query) :
    ((dash_init g raws s0).coords.map Prod.fst) = all_stations (load raws) ∧
    ((dash_init g raws s0).coords.map Prod.fst).Nodup ∧
    (∀ w, w ∈ (dash_init g raws s0).coords.map Prod.fst ↔
      ((∃ r ∈ load raws, r.dep_station = some w) ∨
       (∃ r ∈ load raws, r.ret_station = some w))) ∧
    (update_dashboard (dash_init g raws s0) q).2.coords = (dash_init g raws s0).coords := by
  have hkeys : ((dash_init g raws s0).coords.map Prod.fst) = all_stations (load raws) := by
    show ((station_coords g (load raws) s0).1.map Prod.fst) = all_stations (load raws)
    rw [station_coords_fst, List.map_map]
    exact List.enum_map_snd (all_stations (load raws))
  refine ⟨hkeys, ?_, ?_, rfl⟩
  · rw [hkeys]
    exact all_stations_nodup (load raws)
  · intro w
    rw [hkeys]
    exact all_stations_mem (load raws) w

theorem C9_coordinate_table_witness :
    "B" ∈ (dash_init g0 [raw1] ⟨0, 0⟩).coords.map Prod.fst :=
  ((C9_coordinate_table g0 [raw1] ⟨0, 0⟩ q1).2.2.1 "B").mpr
    (Or.inr ⟨load_row raw1, by decide, by decide⟩)

theorem C10_all_null_mean_witness :
    (compute_result (load [raw_no_vals]) q1).avg_distance_km = none ∧
    (compute_result (load [raw_no_vals]) q1).avg_duration_min = none :=
  ⟨(C10_all_null_mean q1 (load [raw_no_vals]) (by decide)).1 (by decide),
   (C10_all_null_mean q1 (load [raw_no_vals]) (by decide)).2 (by decide)⟩

end HelsinkiBike
